import Mathlib

/-!
Verification of the My-Movie-Database core: data model, analysis engine,
record store, session guard, handlers and command dispatch, shallowly
embedded from the Python sources.

Conventions of the embedding:
* Python dicts (insertion-ordered, unique keys) are association lists.
* Python floats are modelled as rationals (all arithmetic in the analysed
  code is exact decimal arithmetic on small values).
* CPython's `sorted` (a stable sort; `reverse=True` reverses comparisons
  while keeping equal elements in their original order, per the Python
  documentation) is modelled by `List.insertionSort`, which has exactly
  that stable-sort semantics.
* Console printing is irrelevant to the claims and is dropped; error
  messages that decide control flow are recorded in handler results.
-/

namespace MovieApp

/-- Attributes of one movie record, as stored per title in the
`movies` table and in the in-memory dict (src/movie/storage_sql.py,
`list_movies`). -/
structure Movie where
  rating : ℚ
  year : ℤ
  note : String
  poster_url : String
  imdb_id : String
  country : String
  is_favorite : Bool
deriving DecidableEq

/-- The in-memory working collection: Python `dict[str, dict]`,
title ↦ attributes, in insertion order. -/
abbrev MovieDict := List (String × Movie)

/-- One step of Python `max`: keep the accumulator unless the next
value is strictly larger. -/
def pyMaxStep (acc x : ℚ) : ℚ := if acc < x then x else acc

/-- One step of Python `min`. -/
def pyMinStep (acc x : ℚ) : ℚ := if x < acc then x else acc

/-- Python `max` on a non-empty list (analysis.py line 112); the `[]`
case is unreachable behind the emptiness guard. -/
def pyMax : List ℚ → ℚ
  | [] => 0
  | x :: xs => xs.foldl pyMaxStep x

/-- Python `min` on a non-empty list (analysis.py line 114). -/
def pyMin : List ℚ → ℚ
  | [] => 0
  | x :: xs => xs.foldl pyMinStep x

/-- analysis.py, `get_calculated_median_rate` (lines 61-91): sort the
ratings ascending; odd count → element at index `n // 2`; even count →
mean of the elements at `n // 2 - 1` and `n // 2`.  Returns `none` on
empty input (the Python prints an error and returns `None`). -/
def get_calculated_median_rate (movie_dict : MovieDict) : Option ℚ :=
  if movie_dict = [] then none
  else
    let sorted_rate_list :=
      List.insertionSort (· ≤ ·) (movie_dict.map (fun p => p.2.rating))
    let movies_in_database := movie_dict.length
    if movies_in_database % 2 = 1 then
      some (sorted_rate_list.getD (movies_in_database / 2) 0)
    else
      some ((sorted_rate_list.getD (movies_in_database / 2 - 1) 0
             + sorted_rate_list.getD (movies_in_database / 2) 0) / 2)

/-- analysis.py, `get_all_movies_extremes_by_mode` (lines 94-123):
`none` on empty input or unknown mode; otherwise all records whose
rating equals the max (`"best"`) resp. min (`"worst"`) rating. -/
def get_all_movies_extremes_by_mode (movie_dict : MovieDict) (mode : String) :
    Option MovieDict :=
  if movie_dict = [] then none
  else
    let ratings := movie_dict.map (fun p => p.2.rating)
    if mode = "best" then
      some (movie_dict.filter (fun p => p.2.rating = pyMax ratings))
    else if mode = "worst" then
      some (movie_dict.filter (fun p => p.2.rating = pyMin ratings))
    else none

/-- Python `str.lower()`: lowercase every character. -/
def pyLower (s : String) : String := String.mk (s.data.map Char.toLower)

/-- Python `needle in haystack` on strings: contiguous substring test. -/
def pyIn (needle haystack : String) : Bool :=
  decide (needle.data <:+: haystack.data)

/-- helpers/filter_utils.py, `filter_movies_by_search_query` (lines
26-47): on an empty dict prints a warning and returns `{}`; otherwise
keeps the entries whose lowercased title contains `search_query`. -/
def filter_movies_by_search_query (movie_dict : MovieDict)
    (search_query : String) : MovieDict :=
  if movie_dict = [] then []
  else movie_dict.filter (fun p => pyIn search_query (pyLower p.1))

/-- movies/handler.py, `handle_search_movie` (lines 355-356): the raw
query is lowercased before `filter_movies_by_search_query` is called. -/
def handle_search_movie_matches (movie_dict : MovieDict)
    (raw_query : String) : MovieDict :=
  filter_movies_by_search_query movie_dict (pyLower raw_query)

/-- The spec's notion of a case-insensitive substring match of the
query against a title. -/
def caseInsensitiveMatch (query title : String) : Prop :=
  (query.data.map Char.toLower) <:+: (title.data.map Char.toLower)

/-- Attribute dictionary of one record as seen by the generic
sort-by-attr operation (values of the sortable attributes are
numeric). -/
abbrev AttrMap := List (String × ℚ)

/-- Python `details[attr]` for the sort key (stat_utils.py line
45); total via a default that is irrelevant when the attr is
present. -/
def attr_value (details : AttrMap) (attr : String) : ℚ :=
  (details.lookup attr).getD 0

/-- The comparator Python's `sorted(..., key=..., reverse=descending)`
sorts by: `x` may be placed before `y`. -/
def sortRel (attr : String) (descending : Bool)
    (x y : String × AttrMap) : Prop :=
  if descending then attr_value y.2 attr ≤ attr_value x.2 attr
  else attr_value x.2 attr ≤ attr_value y.2 attr

instance (attr : String) (descending : Bool) :
    DecidableRel (sortRel attr descending) := fun x y => by
  unfold sortRel
  infer_instance

/-- helpers/stats_utils.py, `get_movies_sorted_by_attribute` (lines
27-49): `none` (printed error) on an empty dict, else the dict stably
sorted by the chosen attr, descending iff `descending`. -/
def get_movies_sorted_by_attribute (movie_dict : List (String × AttrMap))
    (attr : String) (descending : Bool) :
    Option (List (String × AttrMap)) :=
  if movie_dict = [] then none
  else some (List.insertionSort (sortRel attr descending) movie_dict)

/-- One row of the `movies` table (config/sql_queries.py,
`SQL_CREATE_MOVIES_TABLE`).  `user_id` is an `Option` because the
session guard can hand the storage layer Python `None` (SQL `NULL`). -/
structure MovieRow where
  user_id : Option Nat
  title : String
  attrs : Movie
deriving DecidableEq

/-- The persisted `movies` table. -/
abbrev MoviesTable := List MovieRow

/-- movie/storage_sql.py, `list_movies` (lines 44-68):
`SELECT ... WHERE user_id = :user_id`.  SQL `user_id = NULL` matches no
row, so a `none` id yields the empty dict. -/
def list_movies (table : MoviesTable) (user_id : Option Nat) : MovieDict :=
  match user_id with
  | none => []
  | some u =>
      (table.filter (fun r => r.user_id = some u)).map
        (fun r => (r.title, r.attrs))

/-- The attributes dict built by `handle_add_movie` from the OMDb
response (movies/handler.py lines 180-186). -/
structure ApiMovie where
  rating : ℚ
  year : ℤ
  poster_url : String
  imdb_id : String
  country : String
deriving DecidableEq

/-- movie/storage_sql.py, `add_movie` (lines 71-106): INSERT with
`note = ''`, `is_favorite = False`.  The `NOT NULL` constraint on
`user_id` and `UNIQUE(user_id, title)` reject the insert; the Python
catches the resulting exception inside `add_movie` and prints an error,
so a failed insert leaves the table unchanged and raises nothing. -/
def add_movie (table : MoviesTable) (user_id : Option Nat)
    (new_movie_title : String) (attributes : ApiMovie) : MoviesTable :=
  match user_id with
  | none => table
  | some u =>
      if table.any (fun r => r.user_id = some u ∧ r.title = new_movie_title)
      then table
      else
        table ++ [⟨some u, new_movie_title,
          ⟨attributes.rating, attributes.year, "", attributes.poster_url,
           attributes.imdb_id, attributes.country, false⟩⟩]

/-- movie/storage_sql.py, `delete_movie` (lines 109-128): DELETE by
`(user_id, title)`; `persist_fails` models a `PersistenceError` during
execute/commit, which the Python catches inside `delete_movie` (the
table is then unchanged and no exception reaches the caller).  SQL
`user_id = NULL` matches no row. -/
def delete_movie (table : MoviesTable) (user_id : Option Nat)
    (title : String) (persist_fails : Bool) : MoviesTable :=
  if persist_fails then table
  else
    match user_id with
    | none => table
    | some u =>
        table.filter (fun r => ¬(r.user_id = some u ∧ r.title = title))

/-- users/session_user.py, `abort_if_no_active_user` (lines 62-74): it
prints "No active user!" when the session is unset, but merely
*returns* `None` — it raises nothing, and no caller checks the result. -/
def abort_if_no_active_user (session : Option Nat) : Option Nat := session

/-- A call made by a handler into the record store. -/
inductive StoreCall where
  | listCall (user_id : Option Nat)
  | insertCall (user_id : Option Nat) (title : String)
  | deleteCall (user_id : Option Nat) (title : String)
deriving DecidableEq

/-- Outcome of one handler run: resulting table and in-memory dict, the
record-store calls made, whether the no-active-user message was
printed, and the handler-level error message if any. -/
structure HandlerResult where
  table : MoviesTable
  mem : MovieDict
  calls : List StoreCall
  reported_no_active_user : Bool
  err : Option String
deriving DecidableEq

/-- Python `movie_dict[name] = attrs`: replace in place if the key
exists, else append. -/
def pyDictInsert (d : MovieDict) (k : String) (v : Movie) : MovieDict :=
  if d.any (fun p => p.1 = k) then
    d.map (fun p => if p.1 = k then (k, v) else p)
  else d ++ [(k, v)]

/-- movies/handler.py, `handle_add_movie` (lines 130-199).  `api` is
the parsed OMDb response (`none` for request failure, movie not found,
or unparsable fields — all early returns).  Note that the guard's
result is used as the user id but never tested for `None`. -/
def handle_add_movie (session : Option Nat) (table : MoviesTable)
    (movie_dict : MovieDict) (new_movie_name : String)
    (api : Option ApiMovie) : HandlerResult :=
  let active_user_id := abort_if_no_active_user session
  let reported := active_user_id.isNone
  if movie_dict.any (fun p => p.1 = new_movie_name) then
    ⟨table, movie_dict, [], reported, some "Movie already exists."⟩
  else
    match api with
    | none => ⟨table, movie_dict, [], reported, some "API request failed."⟩
    | some attributes =>
        let table2 := add_movie table active_user_id new_movie_name attributes
        let updated_movies := list_movies table2 active_user_id
        let mem2 :=
          match updated_movies.lookup new_movie_name with
          | some a => pyDictInsert movie_dict new_movie_name a
          | none => movie_dict
        ⟨table2, mem2,
         [.insertCall active_user_id new_movie_name,
          .listCall active_user_id], reported, none⟩

/-- movies/handler.py, `handle_delete_movie` (lines 202-243).  The
handler re-lists the user's movies, validates the title against that
listing, calls `delete_movie` — which swallows persistence failures —
and then unconditionally pops the title from the in-memory dict. -/
def handle_delete_movie (session : Option Nat) (table : MoviesTable)
    (movie_dict : MovieDict) (movie_to_delete : String)
    (persist_fails : Bool) : HandlerResult :=
  let active_user_id := abort_if_no_active_user session
  let reported := active_user_id.isNone
  let user_movies := list_movies table active_user_id
  if user_movies = [] then
    ⟨table, movie_dict, [.listCall active_user_id], reported,
     some "No movies to delete."⟩
  else if ¬ user_movies.any (fun p => p.1 = movie_to_delete) then
    ⟨table, movie_dict, [.listCall active_user_id], reported,
     some "Movie not found for active user."⟩
  else
    let table2 := delete_movie table active_user_id movie_to_delete persist_fails
    let mem2 := movie_dict.filter (fun p => ¬ p.1 = movie_to_delete)
    ⟨table2, mem2,
     [.listCall active_user_id, .deleteCall active_user_id movie_to_delete],
     reported, none⟩

/-- The `users` table: rows `(id, username)` with `AUTOINCREMENT` ids
and `UNIQUE NOT NULL` usernames (config/sql_queries.py lines 48-53). -/
abbrev UsersTable := List (Nat × String)

/-- `AUTOINCREMENT`: one more than the largest id ever used. -/
def nextUserId (users : UsersTable) : Nat :=
  (users.map Prod.fst).foldl max 0 + 1

/-- users/storage_sql.py, `create_user_if_not_exists` (lines 51-63):
`INSERT OR IGNORE INTO users (username) VALUES (:username)` — a no-op
when the username exists, an unconditional insert otherwise.  There is
no validation of the username; the empty string satisfies `NOT NULL`
and is inserted like any other value. -/
def create_user_if_not_exists (users : UsersTable) (username : String) :
    UsersTable :=
  if users.any (fun p => p.2 = username) then users
  else users ++ [(nextUserId users, username)]

/-- helpers/dispatcher_utils.py, `execute_operation` (lines 22-42):
look up the command code; absent → print "Unknown command", return
`False`, touch nothing; present → run the handler on the data and
return its result as a bool.  The result triple is (data after the
call, returned bool, whether a handler was invoked). -/
def execute_operation {σ : Type} (user_input : ℤ) (data : σ)
    (dispatcher : List (ℤ × (σ → σ × Bool))) : σ × Bool × Bool :=
  match dispatcher.lookup user_input with
  | none => (data, false, false)
  | some handler =>
      let r := handler data
      (r.1, r.2, true)

/-- movies/dispatcher.py, `MOVIE_COMMAND_DISPATCHER` (lines 56-122):
the table maps exactly the codes 0..12 (= `MENU_MIN_INDEX` ..
`MENU_MAX_INDEX`, config/config.py lines 71-72) to handlers. -/
def MOVIE_COMMAND_DISPATCHER {σ : Type} (hs : ℤ → (σ → σ × Bool)) :
    List (ℤ × (σ → σ × Bool)) :=
  [(0, hs 0), (1, hs 1), (2, hs 2), (3, hs 3), (4, hs 4), (5, hs 5),
   (6, hs 6), (7, hs 7), (8, hs 8), (9, hs 9), (10, hs 10), (11, hs 11),
   (12, hs 12)]

instance (attr : String) (descending : Bool) :
    IsTotal (String × AttrMap) (sortRel attr descending) where
  total := by
    intro x y
    cases descending <;> simp only [sortRel, if_true, if_false, Bool.false_eq_true,
      ite_true, ite_false] <;> exact le_total _ _

instance (attr : String) (descending : Bool) :
    IsTrans (String × AttrMap) (sortRel attr descending) where
  trans := by
    intro a b c hab hbc
    cases descending <;>
      simp only [sortRel, ite_true, ite_false, Bool.false_eq_true] at hab hbc ⊢
    · exact le_trans hab hbc
    · exact le_trans hbc hab

/-- The rational 3.6 as a kernel-reducible reduced fraction. -/
def q36 : ℚ := ⟨18, 5, by norm_num, by norm_num⟩

/-- The rational 9.2 as a kernel-reducible reduced fraction. -/
def q92 : ℚ := ⟨46, 5, by norm_num, by norm_num⟩

/-- The rational 9.5 as a kernel-reducible reduced fraction. -/
def q95 : ℚ := ⟨19, 2, by norm_num, by norm_num⟩

/-! ### Theorems -/

/-- `pyMaxStep` computes the binary maximum. -/
theorem pyMaxStep_eq_max : pyMaxStep = (fun a x : ℚ => max a x) := by
  funext a x
  unfold pyMaxStep
  rcases lt_or_le a x with h | h
  · rw [if_pos h, max_eq_right h.le]
  · rw [if_neg (not_lt.mpr h), max_eq_left h]

/-- `pyMinStep` computes the binary minimum. -/
theorem pyMinStep_eq_min : pyMinStep = (fun a x : ℚ => min a x) := by
  funext a x
  unfold pyMinStep
  rcases lt_or_le x a with h | h
  · rw [if_pos h, min_eq_right h.le]
  · rw [if_neg (not_lt.mpr h), min_eq_left h]

/-- Auxiliary: Python's fold of `max` dominates the start value and all
list elements, and is attained by one of them. -/
theorem foldl_max_spec (xs : List ℚ) (a : ℚ) :
    a ≤ xs.foldl max a ∧ (∀ x ∈ xs, x ≤ xs.foldl max a) ∧
      (xs.foldl max a = a ∨ xs.foldl max a ∈ xs) := by
  induction xs generalizing a with
  | nil => simp
  | cons y ys ih =>
    obtain ⟨h1, h2, h3⟩ := ih (max a y)
    simp only [List.foldl_cons]
    refine ⟨le_trans (le_max_left a y) h1, ?_, ?_⟩
    · intro x hx
      rcases List.mem_cons.mp hx with hx | hx
      · rw [hx]; exact le_trans (le_max_right a y) h1
      · exact h2 x hx
    · rcases h3 with h3 | h3
      · rcases max_choice a y with hm | hm
        · exact Or.inl (by rw [h3, hm])
        · exact Or.inr (by rw [h3, hm]; exact List.mem_cons_self y ys)
      · exact Or.inr (List.mem_cons_of_mem y h3)

/-- Auxiliary: dual of `foldl_max_spec` for `min`. -/
theorem foldl_min_spec (xs : List ℚ) (a : ℚ) :
    xs.foldl min a ≤ a ∧ (∀ x ∈ xs, xs.foldl min a ≤ x) ∧
      (xs.foldl min a = a ∨ xs.foldl min a ∈ xs) := by
  induction xs generalizing a with
  | nil => simp
  | cons y ys ih =>
    obtain ⟨h1, h2, h3⟩ := ih (min a y)
    simp only [List.foldl_cons]
    refine ⟨le_trans h1 (min_le_left a y), ?_, ?_⟩
    · intro x hx
      rcases List.mem_cons.mp hx with hx | hx
      · rw [hx]; exact le_trans h1 (min_le_right a y)
      · exact h2 x hx
    · rcases h3 with h3 | h3
      · rcases min_choice a y with hm | hm
        · exact Or.inl (by rw [h3, hm])
        · exact Or.inr (by rw [h3, hm]; exact List.mem_cons_self y ys)
      · exact Or.inr (List.mem_cons_of_mem y h3)

/-- Auxiliary: on a non-empty list, `pyMax` is an element and an upper
bound. -/
theorem pyMax_spec (xs : List ℚ) (h : xs ≠ []) :
    pyMax xs ∈ xs ∧ ∀ x ∈ xs, x ≤ pyMax xs := by
  match xs, h with
  | y :: ys, _ =>
    obtain ⟨h1, h2, h3⟩ := foldl_max_spec ys y
    simp only [pyMax, pyMaxStep_eq_max]
    refine ⟨?_, ?_⟩
    · rcases h3 with h3 | h3
      · rw [h3]; exact List.mem_cons_self y ys
      · exact List.mem_cons_of_mem y h3
    · intro x hx
      rcases List.mem_cons.mp hx with hx | hx
      · rw [hx]; exact h1
      · exact h2 x hx

/-- Auxiliary: on a non-empty list, `pyMin` is an element and a lower
bound. -/
theorem pyMin_spec (xs : List ℚ) (h : xs ≠ []) :
    pyMin xs ∈ xs ∧ ∀ x ∈ xs, pyMin xs ≤ x := by
  match xs, h with
  | y :: ys, _ =>
    obtain ⟨h1, h2, h3⟩ := foldl_min_spec ys y
    simp only [pyMin, pyMinStep_eq_min]
    refine ⟨?_, ?_⟩
    · rcases h3 with h3 | h3
      · rw [h3]; exact List.mem_cons_self y ys
      · exact List.mem_cons_of_mem y h3
    · intro x hx
      rcases List.mem_cons.mp hx with hx | hx
      · rw [hx]; exact h1
      · exact h2 x hx

/-- C1: the claim says a movie-affecting handler invoked with no active
user fails with `NoActiveUser` and "does not proceed to any Record
Store call".  The code contradicts this: `abort_if_no_active_user` only
prints the message and returns `None`, `handle_add_movie` never checks
the result, and with no active user it still proceeds to the record
store — both the `INSERT` attempt and the re-listing `SELECT` are
issued (with `user_id = NULL`).  Evaluated here at a concrete input:
empty store, empty collection, a fresh title and a successful API
response. -/
theorem C1_add_handler_reaches_store_without_active_user :
    handle_add_movie none [] [] "Dune" (some ⟨8, 2021, "url", "tt1160419", "USA"⟩)
      = ⟨[], [], [.insertCall none "Dune", .listCall none], true, none⟩ ∧
    (handle_add_movie none [] [] "Dune"
      (some ⟨8, 2021, "url", "tt1160419", "USA"⟩)).calls ≠ [] := by
  constructor
  · rfl
  · decide

/-- C3: the claim says a failed persistence call leaves the in-memory
collection unchanged.  The code contradicts this for delete:
`delete_movie` catches the storage exception internally, so
`handle_delete_movie` always pops the title from the in-memory dict.
Evaluated at a store holding "Dune" for user 1 with the persistence
call failing: the store still holds the row, the in-memory dict no
longer does — exactly the forbidden divergence. -/
theorem C3_delete_diverges_on_persistence_failure :
    (handle_delete_movie (some 1)
        [⟨some 1, "Dune", ⟨9, 2021, "", "url", "tt1160419", "USA", false⟩⟩]
        [("Dune", ⟨9, 2021, "", "url", "tt1160419", "USA", false⟩)]
        "Dune" true).table
      = [⟨some 1, "Dune", ⟨9, 2021, "", "url", "tt1160419", "USA", false⟩⟩] ∧
    (handle_delete_movie (some 1)
        [⟨some 1, "Dune", ⟨9, 2021, "", "url", "tt1160419", "USA", false⟩⟩]
        [("Dune", ⟨9, 2021, "", "url", "tt1160419", "USA", false⟩)]
        "Dune" true).mem = [] := by
  constructor <;> rfl

/-- C8 counterexample: the claim says `ensureUser` fails with
`InvalidUsername` on the empty string and creates no user.  In the
code, `create_user_if_not_exists` performs `INSERT OR IGNORE` with no
validation at all; the empty string satisfies `NOT NULL`, so a user
with the empty username is created. -/
theorem C8_empty_username_is_created :
    create_user_if_not_exists [] "" = [(1, "")] ∧
    create_user_if_not_exists [] "" ≠ [] := by
  constructor
  · rfl
  · decide

/-- C10: the empty query is an identity filter — searching with the
empty string returns the whole collection (and the empty collection on
empty input). -/
theorem C10_empty_query_is_identity (movie_dict : MovieDict) :
    handle_search_movie_matches movie_dict "" = movie_dict ∧
    filter_movies_by_search_query movie_dict "" = movie_dict := by
  have hlow : pyLower "" = "" := rfl
  have hfilter : filter_movies_by_search_query movie_dict "" = movie_dict := by
    unfold filter_movies_by_search_query
    by_cases h : movie_dict = []
    · simp [h]
    · rw [if_neg h]
      apply List.filter_eq_self.mpr
      intro a _
      simp only [pyIn, decide_eq_true_eq]
      exact ⟨[], (pyLower a.1).data, by simp⟩
  exact ⟨by rw [handle_search_movie_matches, hlow, hfilter], hfilter⟩

/-- C7: searching is an exact case-insensitive substring filter on
titles.  A record is in the result iff it is in the collection and the
query (of any letter case — the handler lowercases it, the filter
matches it against the lowercased title) is a substring of its title;
consequently the result is the empty mapping (not an error) exactly
when no title matches. -/
theorem C7_search_is_case_insensitive_substring_filter
    (movie_dict : MovieDict) (raw_query : String) (p : String × Movie) :
    (p ∈ handle_search_movie_matches movie_dict raw_query ↔
      p ∈ movie_dict ∧ caseInsensitiveMatch raw_query p.1) ∧
    (handle_search_movie_matches movie_dict raw_query = [] ↔
      ∀ q ∈ movie_dict, ¬ caseInsensitiveMatch raw_query q.1) := by
  have hkey : ∀ t : String,
      (pyIn (pyLower raw_query) (pyLower t) = true) ↔
        caseInsensitiveMatch raw_query t := by
    intro t
    simp only [pyIn, decide_eq_true_eq]
    exact Iff.rfl
  unfold handle_search_movie_matches filter_movies_by_search_query
  by_cases h : movie_dict = []
  · subst h
    simp
  · rw [if_neg h]
    constructor
    · rw [List.mem_filter, hkey]
    · rw [List.eq_nil_iff_forall_not_mem]
      constructor
      · intro hall q hq hmatch
        exact hall q (List.mem_filter.mpr ⟨hq, (hkey q.1).mpr hmatch⟩)
      · intro hnone x hx
        obtain ⟨hx1, hx2⟩ := List.mem_filter.mp hx
        exact hnone x hx1 ((hkey x.1).mp hx2)

/-- C4: on a non-empty collection, mode "best" (resp. "worst") returns
exactly the records whose rating is maximal (resp. minimal): a record
is in the result iff it is in the collection and its rating dominates
(resp. is dominated by) every rating in the collection — all ties
included, nothing else. -/
theorem C4_extremes_by_mode_exact (movie_dict : MovieDict)
    (h : movie_dict ≠ []) :
    (∃ m, get_all_movies_extremes_by_mode movie_dict "best" = some m ∧
      ∀ p : String × Movie, p ∈ m ↔
        p ∈ movie_dict ∧ ∀ q ∈ movie_dict, q.2.rating ≤ p.2.rating) ∧
    (∃ m, get_all_movies_extremes_by_mode movie_dict "worst" = some m ∧
      ∀ p : String × Movie, p ∈ m ↔
        p ∈ movie_dict ∧ ∀ q ∈ movie_dict, p.2.rating ≤ q.2.rating) := by
  have hrat : movie_dict.map (fun p => p.2.rating) ≠ [] := by
    simpa using h
  obtain ⟨hmaxmem, hmaxub⟩ := pyMax_spec _ hrat
  obtain ⟨hminmem, hminlb⟩ := pyMin_spec _ hrat
  constructor
  · refine ⟨_, by rw [get_all_movies_extremes_by_mode, if_neg h]; rfl, ?_⟩
    intro p
    rw [List.mem_filter]
    simp only [decide_eq_true_eq]
    constructor
    · rintro ⟨hp, hpr⟩
      exact ⟨hp, fun q hq => hpr ▸ hmaxub _ (List.mem_map_of_mem _ hq)⟩
    · rintro ⟨hp, hub⟩
      refine ⟨hp, le_antisymm ?_ ?_⟩
      · exact hmaxub _ (List.mem_map_of_mem _ hp)
      · obtain ⟨q, hq, hqr⟩ := List.mem_map.mp hmaxmem
        exact hqr ▸ hub q hq
  · refine ⟨_, by rw [get_all_movies_extremes_by_mode, if_neg h]; rfl, ?_⟩
    intro p
    rw [List.mem_filter]
    simp only [decide_eq_true_eq]
    constructor
    · rintro ⟨hp, hpr⟩
      exact ⟨hp, fun q hq => hpr ▸ hminlb _ (List.mem_map_of_mem _ hq)⟩
    · rintro ⟨hp, hlb⟩
      refine ⟨hp, le_antisymm ?_ ?_⟩
      · obtain ⟨q, hq, hqr⟩ := List.mem_map.mp hminmem
        exact hqr ▸ hlb q hq
      · exact hminlb _ (List.mem_map_of_mem _ hp)

/-- C4 witness: the claim's own example — ratings A:9.0, B:9.0, C:3.6,
mode "best" returns both A and B. -/
theorem C4_extremes_by_mode_exact_witness :
    ([(("A" : String), (⟨9, 2000, "", "u", "i", "US", false⟩ : Movie)),
      ("B", ⟨9, 2001, "", "u", "i", "US", false⟩),
      ("C", ⟨q36, 2002, "", "u", "i", "US", false⟩)] : MovieDict) ≠ [] ∧
    get_all_movies_extremes_by_mode
      [("A", ⟨9, 2000, "", "u", "i", "US", false⟩),
       ("B", ⟨9, 2001, "", "u", "i", "US", false⟩),
       ("C", ⟨q36, 2002, "", "u", "i", "US", false⟩)] "best"
      = some [("A", ⟨9, 2000, "", "u", "i", "US", false⟩),
              ("B", ⟨9, 2001, "", "u", "i", "US", false⟩)] ∧
    (∃ m, get_all_movies_extremes_by_mode
      [("A", ⟨9, 2000, "", "u", "i", "US", false⟩),
       ("B", ⟨9, 2001, "", "u", "i", "US", false⟩),
       ("C", ⟨q36, 2002, "", "u", "i", "US", false⟩)] "best" = some m ∧
      ∀ p : String × Movie, p ∈ m ↔
        p ∈ ([(("A" : String), (⟨9, 2000, "", "u", "i", "US", false⟩ : Movie)),
              ("B", ⟨9, 2001, "", "u", "i", "US", false⟩),
              ("C", ⟨q36, 2002, "", "u", "i", "US", false⟩)] : MovieDict) ∧
          ∀ q ∈ ([(("A" : String), (⟨9, 2000, "", "u", "i", "US", false⟩ : Movie)),
                  ("B", ⟨9, 2001, "", "u", "i", "US", false⟩),
                  ("C", ⟨q36, 2002, "", "u", "i", "US", false⟩)] : MovieDict),
            q.2.rating ≤ p.2.rating) := by
  refine ⟨by decide, by decide, ?_⟩
  exact (C4_extremes_by_mode_exact _ (by decide)).1

/-- C5: adding a title that is already a key of the working collection
is rejected by the duplicate guard at the top of `handle_add_movie`:
the handler reports the collision, makes no record-store call, and
leaves both the store and the in-memory collection unchanged.  At the
store level, `UNIQUE(user_id, title)` independently rejects an insert
for an existing `(user, title)` pair, leaving the table unchanged. -/
theorem C5_duplicate_title_add_rejected (uid : Nat) (table : MoviesTable)
    (movie_dict : MovieDict) (title : String) (api : Option ApiMovie)
    (attrs : ApiMovie) :
    (movie_dict.any (fun p => p.1 = title) = true →
      handle_add_movie (some uid) table movie_dict title api
        = ⟨table, movie_dict, [], false, some "Movie already exists."⟩) ∧
    ((∃ r ∈ table, r.user_id = some uid ∧ r.title = title) →
      add_movie table (some uid) title attrs = table) := by
  constructor
  · intro hdup
    unfold handle_add_movie abort_if_no_active_user
    rw [if_pos hdup]
    rfl
  · intro hrow
    have hany : (table.any fun r =>
        decide (r.user_id = some uid ∧ r.title = title)) = true := by
      rw [List.any_eq_true]
      simpa using hrow
    simp only [add_movie, hany, if_true]

/-- C5 witness: duplicate add of "Dune" for user 1, at both layers. -/
theorem C5_duplicate_title_add_rejected_witness :
    handle_add_movie (some 1)
        [⟨some 1, "Dune", ⟨8, 2021, "", "u", "i", "US", false⟩⟩]
        [("Dune", ⟨8, 2021, "", "u", "i", "US", false⟩)] "Dune"
        (some ⟨8, 2021, "u", "i", "US"⟩)
      = ⟨[⟨some 1, "Dune", ⟨8, 2021, "", "u", "i", "US", false⟩⟩],
         [("Dune", ⟨8, 2021, "", "u", "i", "US", false⟩)], [], false,
         some "Movie already exists."⟩ ∧
    add_movie [⟨some 1, "Dune", ⟨8, 2021, "", "u", "i", "US", false⟩⟩]
        (some 1) "Dune" ⟨8, 2021, "u", "i", "US"⟩
      = [⟨some 1, "Dune", ⟨8, 2021, "", "u", "i", "US", false⟩⟩] := by
  constructor
  · exact (C5_duplicate_title_add_rejected 1
      [⟨some 1, "Dune", ⟨8, 2021, "", "u", "i", "US", false⟩⟩]
      [("Dune", ⟨8, 2021, "", "u", "i", "US", false⟩)] "Dune"
      (some ⟨8, 2021, "u", "i", "US"⟩) ⟨8, 2021, "u", "i", "US"⟩).1 (by decide)
  · exact (C5_duplicate_title_add_rejected 1
      [⟨some 1, "Dune", ⟨8, 2021, "", "u", "i", "US", false⟩⟩]
      [("Dune", ⟨8, 2021, "", "u", "i", "US", false⟩)] "Dune"
      (some ⟨8, 2021, "u", "i", "US"⟩) ⟨8, 2021, "u", "i", "US"⟩).2
      ⟨⟨some 1, "Dune", ⟨8, 2021, "", "u", "i", "US", false⟩⟩,
       by decide, by decide, by decide⟩

/-- C2: for every non-empty collection, the computed median matches the
textbook definition — against *any* ascending sorted arrangement `s` of
the multiset of ratings: odd count → the middle element `s[n / 2]`;
even count → the arithmetic mean of the two central elements
`s[n / 2 - 1]` and `s[n / 2]`. -/
theorem C2_median_matches_textbook (movie_dict : MovieDict) (s : List ℚ)
    (h : movie_dict ≠ [])
    (hs : List.Sorted (· ≤ ·) s)
    (hperm : (movie_dict.map (fun p => p.2.rating)).Perm s) :
    (movie_dict.length % 2 = 1 →
      get_calculated_median_rate movie_dict
        = some (s.getD (movie_dict.length / 2) 0)) ∧
    (movie_dict.length % 2 = 0 →
      get_calculated_median_rate movie_dict
        = some ((s.getD (movie_dict.length / 2 - 1) 0
                 + s.getD (movie_dict.length / 2) 0) / 2)) := by
  have hsorted :
      List.insertionSort (· ≤ ·) (movie_dict.map (fun p => p.2.rating)) = s :=
    List.eq_of_perm_of_sorted ((List.perm_insertionSort _ _).trans hperm)
      (List.sorted_insertionSort _ _) hs
  constructor
  · intro hodd
    simp only [get_calculated_median_rate, if_neg h, hsorted, hodd, if_true]
  · intro heven
    simp only [get_calculated_median_rate, if_neg h, hsorted]
    rw [if_neg (by omega)]

/-- C2 witness: the claim's odd-count example — ratings 3.6, 9.5, 9.2
have median 9.2. -/
theorem C2_median_matches_textbook_witness :
    get_calculated_median_rate
      [("T", ⟨q36, 2000, "", "u", "i", "US", false⟩),
       ("A", ⟨q95, 2001, "", "u", "i", "US", false⟩),
       ("B", ⟨q92, 2002, "", "u", "i", "US", false⟩)] = some q92 := by
  have h := (C2_median_matches_textbook
      [("T", ⟨q36, 2000, "", "u", "i", "US", false⟩),
       ("A", ⟨q95, 2001, "", "u", "i", "US", false⟩),
       ("B", ⟨q92, 2002, "", "u", "i", "US", false⟩)]
      [q36, q92, q95] (by decide) (by decide) (by decide)).1 (by decide)
  simpa using h

/-- Auxiliary: a stable sort leaves the subsequence of elements picked
out by any predicate on which the order relation is indiscrete
unchanged — the classical statement of sort stability. -/
theorem filter_insertionSort_of_rel {α : Type} (r : α → α → Prop)
    [DecidableRel r] (l : List α) (p : α → Bool)
    (hp : ∀ x y, p x = true → p y = true → r x y) :
    (List.insertionSort r l).filter p = l.filter p := by
  have hpair : (l.filter p).Pairwise r :=
    List.pairwise_of_forall_mem_list fun a ha b hb =>
      hp a b (List.of_mem_filter ha) (List.of_mem_filter hb)
  have h1 : List.Sublist (l.filter p) (List.insertionSort r l) :=
    List.sublist_insertionSort hpair (List.filter_sublist l)
  have h2 : ((List.insertionSort r l).filter p).Perm (l.filter p) :=
    (List.perm_insertionSort r l).filter p
  have h3 : List.Sublist (l.filter p) ((List.insertionSort r l).filter p) := by
    have h4 := h1.filter p
    rwa [List.filter_filter,
      (by funext a; rw [Bool.and_self] : (fun a => p a && p a) = p)] at h4
  exact (h3.eq_of_length h2.length_eq.symm).symm

/-- C6: sorting by an attribute present in every record is, in both
directions, a stable key sort: the result is a permutation of the
input, it is sorted by the chosen comparator (descending is a stable
descending sort, not a reversal of the ascending output), and for every
key value the records carrying that value appear in exactly their
input order. -/
theorem C6_sort_by_attribute_stable (movie_dict : List (String × AttrMap))
    (attr : String) (descending : Bool) (h : movie_dict ≠ [])
    (hattr : ∀ p ∈ movie_dict, (p.2.lookup attr).isSome = true) :
    ∃ out, get_movies_sorted_by_attribute movie_dict attr descending = some out ∧
      (∀ c : ℚ, out.filter (fun p => attr_value p.2 attr = c)
        = movie_dict.filter (fun p => attr_value p.2 attr = c)) ∧
      out.Perm movie_dict ∧
      List.Sorted (sortRel attr descending) out := by
  refine ⟨List.insertionSort (sortRel attr descending) movie_dict,
    by rw [get_movies_sorted_by_attribute, if_neg h], ?_,
    List.perm_insertionSort _ _, List.sorted_insertionSort _ _⟩
  intro c
  apply filter_insertionSort_of_rel
  intro x y hx hy
  simp only [decide_eq_true_eq] at hx hy
  unfold sortRel
  split <;> rw [hx, hy]

/-- C6 witness: three records, two tied on `rating`, sorted descending
by `rating`. -/
theorem C6_sort_by_attribute_stable_witness :
    ∃ out, get_movies_sorted_by_attribute
        [("A", [("rating", (5 : ℚ))]), ("B", [("rating", 5)]),
         ("C", [("rating", 3)])] "rating" true = some out ∧
      (∀ c : ℚ, out.filter (fun p => attr_value p.2 "rating" = c)
        = ([("A", [("rating", (5 : ℚ))]), ("B", [("rating", 5)]),
            ("C", [("rating", 3)])] : List (String × AttrMap)).filter
            (fun p => attr_value p.2 "rating" = c)) ∧
      out.Perm [("A", [("rating", (5 : ℚ))]), ("B", [("rating", 5)]),
                ("C", [("rating", 3)])] ∧
      List.Sorted (sortRel "rating" true) out :=
  C6_sort_by_attribute_stable
    [("A", [("rating", (5 : ℚ))]), ("B", [("rating", 5)]), ("C", [("rating", 3)])]
    "rating" true (by decide) (by decide)

/-- C8 (amended): `create_user_if_not_exists` is total and idempotent
on *every* username, the empty string included: on a table with unique
usernames it ensures exactly one user with the given name exists —
returning the table unchanged when the name exists and appending a
fresh row otherwise — and applying it twice equals applying it once. -/
theorem C8_create_user_idempotent_total (users : UsersTable) (username : String)
    (h : (users.map Prod.snd).Nodup) :
    username ∈ (create_user_if_not_exists users username).map Prod.snd ∧
    create_user_if_not_exists (create_user_if_not_exists users username) username
      = create_user_if_not_exists users username ∧
    ((create_user_if_not_exists users username).map Prod.snd).count username
      = 1 := by
  by_cases hmem : (users.any fun p => decide (p.2 = username)) = true
  · have hin : username ∈ users.map Prod.snd := by
      rw [List.any_eq_true] at hmem
      obtain ⟨p, hp, hpu⟩ := hmem
      simp only [decide_eq_true_eq] at hpu
      exact hpu ▸ List.mem_map_of_mem Prod.snd hp
    have hstep : create_user_if_not_exists users username = users := by
      unfold create_user_if_not_exists
      rw [if_pos hmem]
    rw [hstep, hstep]
    exact ⟨hin, rfl, List.count_eq_one_of_mem h hin⟩
  · have hnotin : username ∉ users.map Prod.snd := by
      intro hin
      apply hmem
      rw [List.any_eq_true]
      obtain ⟨p, hp, hpe⟩ := List.mem_map.mp hin
      exact ⟨p, hp, by simp [hpe]⟩
    have hstep : create_user_if_not_exists users username
        = users ++ [(nextUserId users, username)] := by
      unfold create_user_if_not_exists
      rw [if_neg hmem]
    have hmem2 : ((users ++ [(nextUserId users, username)]).any
        fun p => decide (p.2 = username)) = true := by
      rw [List.any_eq_true]
      exact ⟨(nextUserId users, username), by simp, by simp⟩
    have hstep2 : create_user_if_not_exists
        (users ++ [(nextUserId users, username)]) username
        = users ++ [(nextUserId users, username)] := by
      unfold create_user_if_not_exists
      rw [if_pos hmem2]
    rw [hstep, hstep2]
    refine ⟨by simp, rfl, ?_⟩
    rw [List.map_append, List.count_append]
    simp [List.count_eq_zero.mpr hnotin]

/-- C8 witness: ensuring "Bob" on a table holding only "Alice". -/
theorem C8_create_user_idempotent_total_witness :
    "Bob" ∈ (create_user_if_not_exists [(1, "Alice")] "Bob").map Prod.snd ∧
    create_user_if_not_exists
        (create_user_if_not_exists [(1, "Alice")] "Bob") "Bob"
      = create_user_if_not_exists [(1, "Alice")] "Bob" ∧
    ((create_user_if_not_exists [(1, "Alice")] "Bob").map Prod.snd).count "Bob"
      = 1 :=
  C8_create_user_idempotent_total [(1, "Alice")] "Bob" (by decide)

/-- Auxiliary: a lookup whose key differs from every key of the table
yields `none`. -/
theorem lookup_eq_none_of_keys_ne {β : Type} (ps : List (ℤ × β)) (c : ℤ)
    (h : ∀ p ∈ ps, p.1 ≠ c) : ps.lookup c = none := by
  induction ps with
  | nil => rfl
  | cons q t ih =>
    obtain ⟨k, v⟩ := q
    have hk : (c == k) = false := by
      simp only [beq_eq_false_iff_ne, ne_eq]
      intro e
      exact h (k, v) (List.mem_cons_self _ _) e.symm
    simp only [List.lookup, hk]
    exact ih fun p hp => h p (List.mem_cons_of_mem _ hp)

/-- C9: a command code that is absent from the dispatch table — in
particular any code outside `[MENU_MIN_INDEX, MENU_MAX_INDEX] = [0, 12]`
for the movie dispatcher — makes `execute_operation` report
`UnknownCommand` and return failure without invoking any handler and
without touching the data (collection and session) it was given. -/
theorem C9_unknown_command_no_dispatch {σ : Type} (hs : ℤ → (σ → σ × Bool))
    (dispatcher : List (ℤ × (σ → σ × Bool))) (code : ℤ) (data : σ) :
    (dispatcher.lookup code = none →
      execute_operation code data dispatcher = (data, false, false)) ∧
    ((code < 0 ∨ 12 < code) →
      execute_operation code data (MOVIE_COMMAND_DISPATCHER hs)
        = (data, false, false)) := by
  have hgen : ∀ t : List (ℤ × (σ → σ × Bool)), t.lookup code = none →
      execute_operation code data t = (data, false, false) := by
    intro t hnone
    unfold execute_operation
    rw [hnone]
  refine ⟨hgen dispatcher, fun hout => hgen _ ?_⟩
  apply lookup_eq_none_of_keys_ne
  intro p hp
  unfold MOVIE_COMMAND_DISPATCHER at hp
  fin_cases hp <;> simp only [] <;> omega

/-- C9 witness: code 13 (just past `MENU_MAX_INDEX`) on a dispatcher of
handlers that would visibly mutate a `Nat` state. -/
theorem C9_unknown_command_no_dispatch_witness :
    execute_operation 13 (0 : Nat)
        (MOVIE_COMMAND_DISPATCHER (fun _ => fun d => (d + 1, true)))
      = (0, false, false) :=
  (C9_unknown_command_no_dispatch (fun _ => fun d => (d + 1, true))
    [] 13 0).2 (by norm_num)

end MovieApp
